import Mathlib

/-!
Verification of the PuckPattern event-classification and derived-metrics engine.

Shallow embedding of the repository's core:
- backend/app/data_import/event_processor.py  (EventProcessor: xG estimator,
  shot geometry, pass-to-shot assist linking)
- backend/app/processing/event_processor.py   (EventProcessor: process_game
  orchestrator, _is_processed, shot/entry/pass/recovery classifiers, PDI, ICE+)
- backend/app/services/metrics_service.py     (MetricsService: ECR, PRI, PDI,
  shot metrics, simplified ICE+)

Modelling conventions:
- Python floats are modelled as exact rationals where the source arithmetic is
  rational, and as real numbers where the source uses sqrt/atan; the xG formula
  is stated over an arbitrary linear ordered field so the same definition can be
  instantiated at both.
- A SQLAlchemy query over the game_events table is modelled as a scan of a list
  of GameEvent rows; the orchestrator loads a game's events ordered by
  (period, time_elapsed), so order_by(time_elapsed).first() over a same-game
  same-period filter is the head of the filtered list, and the descending
  variant is its last element.  SQL null-comparison semantics (NULL = x is not
  satisfied) are modelled explicitly on Option-valued columns.
- The GameEvent ORM model has no details/description columns, so the source's
  hasattr(event, "details")/hasattr(event, "description") probes are always
  False; the corresponding defaults are resolved accordingly.
-/

/-- Python s.lower() (ASCII data in this schema). -/
def pyLower (s : String) : String :=
  String.mk (s.toList.map Char.toLower)

/-- Python s.replace(" ", "_") (single-character pattern, so a character map). -/
def pyReplaceSpace (s : String) : String :=
  String.mk (s.toList.map (fun c => if c = ' ' then '_' else c))

/-- Helper for substring search on character lists. -/
def strContainsAux (needle : List Char) : List Char → Bool
  | [] => needle.isEmpty
  | c :: t => List.isPrefixOf needle (c :: t) || strContainsAux needle t

/-- Python substring test: needle in hay. -/
def pyContains (hay needle : String) : Bool :=
  strContainsAux needle.toList hay.toList

/-- SQL comparison col = value between nullable columns: a NULL on either side
makes the predicate not satisfied. -/
def optEq {α : Type} [DecidableEq α] : Option α → Option α → Bool
  | some a, some b => decide (a = b)
  | _, _ => false

/-- SQL comparison col != value between nullable columns: NULL never matches. -/
def optNe {α : Type} [DecidableEq α] : Option α → Option α → Bool
  | some a, some b => decide (a ≠ b)
  | _, _ => false

/-- SQL comparison col <= bound on a nullable numeric column. -/
def optLe (x : Option ℚ) (b : ℚ) : Bool :=
  match x with
  | some v => decide (v ≤ b)
  | none => false

/-- A row of the game_events table (models/base.py GameEvent), restricted to the
columns the classification engine reads. -/
structure GameEvent where
  id : Nat
  game_id : String
  event_type : String
  period : Int
  time_elapsed : ℚ
  x_coordinate : Option ℚ
  y_coordinate : Option ℚ
  team_id : Option Int
  player_id : Option Int
  situation_code : Option String
deriving DecidableEq

/-- Shot-type factor chain of data_import _calculate_xg (lines 236-247): the
source tests shot_type against pairs of NHL API spellings and multiplies xg by
the branch's constant; an unmatched type leaves xg unchanged (factor 1). -/
def shotTypeFactorDI {α : Type} [LinearOrderedField α] (shot_type : String) : α :=
  if shot_type = "Slap Shot" ∨ shot_type = "SLAP_SHOT" then 8/10
  else if shot_type = "Wrist Shot" ∨ shot_type = "WRIST_SHOT" then 11/10
  else if shot_type = "Deflected" ∨ shot_type = "DEFLECTION" then 13/10
  else if shot_type = "Snap Shot" ∨ shot_type = "SNAP_SHOT" then 1
  else if shot_type = "Backhand" ∨ shot_type = "BACKHAND" then 9/10
  else if shot_type = "Tip-In" ∨ shot_type = "TIP_IN" then 14/10
  else 1

/-- data_import _calculate_xg line 250-251: if shot_event.rush_shot, xg *= 1.2. -/
def rushAdjustDI {α : Type} [LinearOrderedField α] (rush_shot : Bool) (xg : α) : α :=
  if rush_shot then xg * (12/10) else xg

/-- data_import _calculate_xg line 252-253: if shot_event.rebound_shot, xg *= 1.3. -/
def reboundAdjustDI {α : Type} [LinearOrderedField α] (rebound_shot : Bool) (xg : α) : α :=
  if rebound_shot then xg * (13/10) else xg

/-- data_import _calculate_xg lines 256-259: xg *= 1.2 when situation_code is
"PP", xg *= 0.7 when "SH" (a missing code matches neither). -/
def situationAdjustDI {α : Type} [LinearOrderedField α]
    (situation_code : Option String) (xg : α) : α :=
  if situation_code = some "PP" then xg * (12/10)
  else if situation_code = some "SH" then xg * (7/10)
  else xg

/-- data_import/event_processor.py _calculate_xg (lines 224-261).  Inputs are
the ShotEvent's nullable distance and angle, its shot type and rush/rebound
flags, and the underlying event's situation_code. -/
def calcXgDataImport {α : Type} [LinearOrderedField α]
    (distance angle : Option α) (shot_type : String)
    (rush_shot rebound_shot : Bool) (situation_code : Option String) : α :=
  match distance, angle with
  | some d, some a =>
      min (95/100)
        (situationAdjustDI situation_code
          (reboundAdjustDI rebound_shot
            (rushAdjustDI rush_shot
              (max (1/100) (1 - d/100) * (1 - (a/90) * (7/10)) *
                shotTypeFactorDI shot_type))))
  | _, _ => 5/100

/-- Shot-type multiplier table of processing _calculate_xg (lines 368-378),
looked up at shot_type.lower().replace(" ", "_") with default 1.0. -/
def typeMultiplierProcessing {α : Type} [LinearOrderedField α] (key : String) : α :=
  if key = "wrist_shot" then 1
  else if key = "slap_shot" then 9/10
  else if key = "snap_shot" then 1
  else if key = "backhand" then 85/100
  else if key = "deflection" then 13/10
  else if key = "tip_in" then 14/10
  else if key = "one_timer" then 12/10
  else 1

/-- processing/event_processor.py _calculate_xg (lines 355-381): same base and
angle terms as the data_import variant, a different shot-type table, and no
rush/rebound/situation adjustment at all. -/
def calcXgProcessing {α : Type} [LinearOrderedField α]
    (distance angle : Option α) (shot_type : String) : α :=
  match distance, angle with
  | some d, some a =>
      min (95/100)
        (max (1/100) (1 - d/100) * (1 - (a/90) * (7/10)) *
          typeMultiplierProcessing (pyReplaceSpace (pyLower shot_type)))
  | _, _ => 5/100

/-- The claim's shot-type categories. -/
inductive SpecShotType
  | slap
  | wrist
  | deflection
  | tipIn
  | backhand
  | snap
  | unknown
deriving DecidableEq

/-- Reference shot-type factor exactly as the claim words it: slap=0.8,
wrist=1.1, deflection=1.3, tip-in=1.4, backhand=0.9, snap=1.0, unknown=1.0. -/
def specShotTypeFactor {α : Type} [LinearOrderedField α] : SpecShotType → α
  | .slap => 8/10
  | .wrist => 11/10
  | .deflection => 13/10
  | .tipIn => 14/10
  | .backhand => 9/10
  | .snap => 1
  | .unknown => 1

/-- The claim's situation categories. -/
inductive SpecSituation
  | pp
  | sh
  | even
deriving DecidableEq

/-- Spec-side step: multiply by 1.2 if the shot is a rush shot. -/
def specRushApply {α : Type} [LinearOrderedField α] (rush : Bool) (x : α) : α :=
  if rush then x * (12/10) else x

/-- Spec-side step: multiply by 1.3 if the shot is a rebound shot. -/
def specReboundApply {α : Type} [LinearOrderedField α] (rebound : Bool) (x : α) : α :=
  if rebound then x * (13/10) else x

/-- Spec-side step: multiply by 1.2 on the power play, by 0.7 short-handed. -/
def specSituationApply {α : Type} [LinearOrderedField α] (sit : SpecSituation) (x : α) : α :=
  match sit with
  | .pp => x * (12/10)
  | .sh => x * (7/10)
  | .even => x

/-- Reference xG formula following the claim's words step by step: base =
max(0.01, 1 - distance/100); times (1 - (angle/90)*0.7); times the shot-type
factor; times 1.2 if rush and 1.3 if rebound (both may apply); times 1.2 on the
power play and 0.7 short-handed; clamped to at most 0.95. -/
def xgSpecReference {α : Type} [LinearOrderedField α]
    (distance angle : α) (st : SpecShotType) (rush rebound : Bool)
    (sit : SpecSituation) : α :=
  min (95/100)
    (specSituationApply sit
      (specReboundApply rebound
        (specRushApply rush
          (max (1/100) (1 - distance/100) * (1 - (angle/90) * (7/10)) *
            specShotTypeFactor st))))

/-- Which claim category each data_import shot-type string falls in (the same
string tests, in the same order, as the source's factor chain). -/
def classifyShotTypeDI (shot_type : String) : SpecShotType :=
  if shot_type = "Slap Shot" ∨ shot_type = "SLAP_SHOT" then .slap
  else if shot_type = "Wrist Shot" ∨ shot_type = "WRIST_SHOT" then .wrist
  else if shot_type = "Deflected" ∨ shot_type = "DEFLECTION" then .deflection
  else if shot_type = "Snap Shot" ∨ shot_type = "SNAP_SHOT" then .snap
  else if shot_type = "Backhand" ∨ shot_type = "BACKHAND" then .backhand
  else if shot_type = "Tip-In" ∨ shot_type = "TIP_IN" then .tipIn
  else .unknown

/-- Which claim situation category a situation_code falls in. -/
def classifySituation (situation_code : Option String) : SpecSituation :=
  if situation_code = some "PP" then .pp
  else if situation_code = some "SH" then .sh
  else .even

/-- math.degrees of one radian: 180 / pi. -/
noncomputable def degreesPerRadian : ℝ := 180 / Real.pi

/-- Shot distance, computed identically at processing _process_shot line 294 and
data_import _process_shot_event line 146: Euclidean distance in feet from the
shot coordinates to the goal point (89, 0), via ((x-89)**2 + (y-0)**2) ** 0.5. -/
noncomputable def shotDistance (x y : ℚ) : ℝ :=
  Real.sqrt (((x : ℝ) - 89) ^ 2 + ((y : ℝ) - 0) ^ 2)

/-- processing _process_shot angle (lines 296-300):
abs(math.degrees(math.atan((y - 0) / (x - 89)))) when x differs from 89, and
the special value 90 when x = 89. -/
noncomputable def shotAngleProcessing (x y : ℚ) : ℝ :=
  if x = 89 then 90
  else |Real.arctan (((y : ℝ) - 0) / ((x : ℝ) - 89)) * degreesPerRadian|

/-- data_import _process_shot_event angle (lines 135-150): initialised to None
and set to math.degrees(math.atan(abs(y - 0) / abs(x - 89))) only when x
differs from 89 - there is no 90-degree special case in this variant, so a shot
taken exactly on the goal line keeps a null angle. -/
noncomputable def shotAngleDataImport (x y : ℚ) : Option ℝ :=
  if x = 89 then none
  else some (Real.arctan (|(y : ℝ) - 0| / |(x : ℝ) - 89|) * degreesPerRadian)

/-- A row of the shot_events table (models/analytics.py ShotEvent), restricted
to the columns the engine writes and reads. -/
structure ShotRec where
  event_id : Nat
  shot_type : String
  distance : Option ℝ
  angle : Option ℝ
  goal : Bool
  shooter_id : Option Int
  goalie_id : Option Int
  primary_assist_id : Option Int
  secondary_assist_id : Option Int
  preceding_event_id : Option Nat
  xg : ℝ
  is_scoring_chance : Bool
  is_high_danger : Bool
  rush_shot : Bool
  rebound_shot : Bool

/-- A row of the zone_entries table (models/analytics.py ZoneEntry). -/
structure ZoneEntryRec where
  event_id : Nat
  entry_type : String
  controlled : Bool
  player_id : Option Int
  defender_id : Option Int
  lead_to_shot : Bool
  lead_to_shot_time : Option ℚ
  attack_speed : String
deriving DecidableEq

/-- A row of the passes table (models/analytics.py Pass).  The distance and
angle_change columns are always written as None by the engine (processing
_process_pass lines 606-610) and never read, so they are not modelled. -/
structure PassRec where
  event_id : Nat
  passer_id : Option Int
  recipient_id : Option Int
  pass_type : String
  zone : String
  completed : Bool
  intercepted : Bool
  intercepted_by_id : Option Int
deriving DecidableEq

/-- A row of the puck_recoveries table (models/analytics.py PuckRecovery). -/
structure RecoveryRec where
  event_id : Nat
  player_id : Option Int
  zone : String
  recovery_type : String
  lead_to_possession : Bool
  preceded_by_id : Option Nat
deriving DecidableEq

/-- The four derived-record tables written by the processing orchestrator. -/
structure DBState where
  shots : List ShotRec
  entries : List ZoneEntryRec
  passes : List PassRec
  recoveries : List RecoveryRec

/-- The counters dictionary built by process_game (lines 47-54 and the
increments in its dispatch branches). -/
structure ProcStats where
  total_events : Nat
  shots_processed : Nat
  entries_processed : Nat
  passes_processed : Nat
  recoveries_processed : Nat
  other_processed : Nat
deriving DecidableEq

/-- db.query(GameEvent).filter(p).order_by(time_elapsed).first() against a
game's event table held in (period, time_elapsed) order: the first match. -/
def queryFirstAsc (events : List GameEvent) (p : GameEvent → Bool) : Option GameEvent :=
  (events.filter p).head?

/-- The order_by(time_elapsed.desc()).first() variant: the last match of the
ascending table. -/
def queryFirstDesc (events : List GameEvent) (p : GameEvent → Bool) : Option GameEvent :=
  (events.filter p).getLast?

/-- The zone thresholds used inline throughout the processing classifiers
(x > 25 offensive, x < -25 defensive, otherwise - or with no coordinate -
neutral). -/
def zoneOfX (x : Option ℚ) : String :=
  match x with
  | none => "NZ"
  | some v => if v > 25 then "OZ" else if v < -25 then "DZ" else "NZ"

/-- The shot family list used by both process_game (line 66) and _is_processed
(line 194). -/
def shotEventTypes : List String :=
  ["shot-on-goal", "blocked-shot", "missed-shot", "goal", "failed-shot-attempt"]

/-- The contextual event types of process_game's final dispatch branch
(line 86). -/
def otherEventTypes : List String :=
  ["faceoff", "hit", "penalty", "delayed-penalty"]

/-- processing _is_processed (lines 180-214): dispatch on the lowercased event
type; for each of the four derived families, processed means a derived record
with this event's id exists; any other type is reported as already processed. -/
def isProcessed (st : DBState) (e : GameEvent) : Bool :=
  let event_type := pyLower e.event_type
  if shotEventTypes.contains event_type then
    st.shots.any (fun s => s.event_id = e.id)
  else if pyContains event_type "entry" then
    st.entries.any (fun r => r.event_id = e.id)
  else if pyContains event_type "pass" then
    st.passes.any (fun r => r.event_id = e.id)
  else if event_type = "giveaway" ∨ event_type = "takeaway" then
    st.recoveries.any (fun r => r.event_id = e.id)
  else
    true

/-- processing _is_pass (lines 106-123): the source deliberately always returns
False ("we'll return False to avoid creating inaccurate pass data"). -/
def isPassProcessing (_events : List GameEvent) (_e : GameEvent) : Bool :=
  false

/-- processing _is_zone_entry (lines 216-262): explicit "entry" types, else an
inferred entry when the event is in the offensive zone and a same-team event in
the last 5 seconds sat at x <= 25, else a first-possession inference for
shot/shot-on-goal/pass events in the offensive zone with no same-team event in
the last 3 seconds. -/
def isZoneEntry (events : List GameEvent) (e : GameEvent) : Bool :=
  if pyContains (pyLower e.event_type) "entry" then true
  else
    let inferredFromProgress :=
      match e.x_coordinate with
      | some x =>
          if decide (x > 25) then
            (queryFirstDesc events (fun p =>
              decide (p.game_id = e.game_id) && decide (p.period = e.period) &&
              decide (p.time_elapsed < e.time_elapsed) &&
              decide (e.time_elapsed - 5 ≤ p.time_elapsed) &&
              optEq p.team_id e.team_id &&
              optLe p.x_coordinate 25)).isSome
          else false
      | none => false
    if inferredFromProgress then true
    else
      match e.x_coordinate with
      | some x =>
          if (e.event_type = "shot" ∨ e.event_type = "shot-on-goal" ∨
              e.event_type = "pass") ∧ x > 25 then
            !(queryFirstDesc events (fun p =>
                decide (p.game_id = e.game_id) && decide (p.period = e.period) &&
                decide (p.time_elapsed < e.time_elapsed) &&
                decide (e.time_elapsed - 3 ≤ p.time_elapsed) &&
                optEq p.team_id e.team_id)).isSome
          else false
      | none => false

/-- processing _process_shot preceding-event lookup (lines 321-331): the latest
event of the same game and period in the 3 seconds before the shot. -/
def precedingEventWithin3 (events : List GameEvent) (e : GameEvent) : Option GameEvent :=
  queryFirstDesc events (fun p =>
    decide (p.game_id = e.game_id) && decide (p.period = e.period) &&
    decide (p.time_elapsed < e.time_elapsed) &&
    decide (e.time_elapsed - 3 ≤ p.time_elapsed))

/-- processing _is_rush_shot (lines 399-414): the preceding event (fetched by
id) was in the neutral band and at most 5 seconds before the shot. -/
def isRushShotProcessing (events : List GameEvent) (e : GameEvent)
    (preceding_event_id : Option Nat) : Bool :=
  match preceding_event_id with
  | none => false
  | some i =>
      match events.find? (fun g => g.id = i) with
      | none => false
      | some prev =>
          match prev.x_coordinate with
          | some x =>
              if decide (-25 ≤ x) && decide (x ≤ 25) then
                decide (e.time_elapsed - prev.time_elapsed ≤ 5)
              else false
          | none => false

/-- processing _is_rebound_shot (lines 416-431): the preceding event was itself
a shot/shot-on-goal/missed-shot at most 3 seconds before. -/
def isReboundShotProcessing (events : List GameEvent) (e : GameEvent)
    (preceding_event_id : Option Nat) : Bool :=
  match preceding_event_id with
  | none => false
  | some i =>
      match events.find? (fun g => g.id = i) with
      | none => false
      | some prev =>
          if prev.event_type = "shot" ∨ prev.event_type = "shot-on-goal" ∨
             prev.event_type = "missed-shot" then
            decide (e.time_elapsed - prev.time_elapsed ≤ 3)
          else false

/-- processing _is_scoring_chance (lines 383-389), on the real-valued
distance/angle of the shot; None on either side gives False. -/
noncomputable def isScoringChanceProcessing (distance angle : Option ℝ) : Bool :=
  match distance, angle with
  | some d, some a => if d ≤ 30 ∨ a ≤ 30 then true else false
  | _, _ => false

/-- processing _is_high_danger (lines 391-397). -/
noncomputable def isHighDangerProcessing (distance angle : Option ℝ) : Bool :=
  match distance, angle with
  | some d, some a => if d ≤ 15 ∨ a ≤ 15 then true else false
  | _, _ => false

/-- Distance/angle of a shot in the processing classifier (lines 285-300):
both null when either coordinate is missing. -/
noncomputable def shotDistAngleProcessing (x y : Option ℚ) : Option ℝ × Option ℝ :=
  match x, y with
  | some xv, some yv => (some (shotDistance xv yv), some (shotAngleProcessing xv yv))
  | _, _ => (none, none)

/-- The ShotEvent row built by processing _process_shot (lines 276-350).  The
GameEvent model has no details column, so shot_type is the "wrist_shot"
default and goalie/assist ids stay None; goal compares the raw event_type
against "goal" (line 277). -/
noncomputable def mkShotRecProcessing (events : List GameEvent) (e : GameEvent) : ShotRec :=
  { event_id := e.id
    shot_type := "wrist_shot"
    distance := (shotDistAngleProcessing e.x_coordinate e.y_coordinate).1
    angle := (shotDistAngleProcessing e.x_coordinate e.y_coordinate).2
    goal := decide (e.event_type = "goal")
    shooter_id := e.player_id
    goalie_id := none
    primary_assist_id := none
    secondary_assist_id := none
    preceding_event_id := (precedingEventWithin3 events e).map (fun p => p.id)
    xg := calcXgProcessing (shotDistAngleProcessing e.x_coordinate e.y_coordinate).1
            (shotDistAngleProcessing e.x_coordinate e.y_coordinate).2 "wrist_shot"
    is_scoring_chance := isScoringChanceProcessing
      (shotDistAngleProcessing e.x_coordinate e.y_coordinate).1
      (shotDistAngleProcessing e.x_coordinate e.y_coordinate).2
    is_high_danger := isHighDangerProcessing
      (shotDistAngleProcessing e.x_coordinate e.y_coordinate).1
      (shotDistAngleProcessing e.x_coordinate e.y_coordinate).2
    rush_shot := isRushShotProcessing events e
      ((precedingEventWithin3 events e).map (fun p => p.id))
    rebound_shot := isReboundShotProcessing events e
      ((precedingEventWithin3 events e).map (fun p => p.id)) }

/-- processing _process_shot (lines 264-353): skip when a ShotEvent for this
event id exists (lines 271-274, a bare return - the method's value is always
None), otherwise insert the built row. -/
noncomputable def processShot (events : List GameEvent) (st : DBState) (e : GameEvent) : DBState :=
  if st.shots.any (fun s => s.event_id = e.id) then st
  else { st with shots := st.shots ++ [mkShotRecProcessing events e] }

/-- The return value of processing _process_shot: both the skip branch
(line 274) and the insert branch (fall-through) return None. -/
noncomputable def processShotRet (events : List GameEvent) (st : DBState) (e : GameEvent) :
    DBState × Option ShotRec :=
  (processShot events st e, none)

/-- The shot types searched for by _process_zone_entry's entry-to-shot lookup
(line 485). -/
def zoneEntryShotTypes : List String := ["shot", "shot-on-goal", "goal", "missed-shot"]

/-- The filter of _process_zone_entry's entry-to-shot query (lines 479-486):
same game and period, strictly after the entry, within 10 seconds, same
(non-null) team, event type in the shot list. -/
def zoneEntryShotPred (e g : GameEvent) : Bool :=
  decide (g.game_id = e.game_id) && decide (g.period = e.period) &&
  decide (e.time_elapsed < g.time_elapsed) &&
  decide (g.time_elapsed ≤ e.time_elapsed + 10) &&
  optEq g.team_id e.team_id &&
  zoneEntryShotTypes.contains g.event_type

/-- The loop body of processing _is_rush_entry (lines 524-532) over the
descending-ordered previous events: skip events with no coordinate; x < 0
decides rush; a neutral-band x returns whether the gap is at most 4 seconds;
an offensive-zone x moves on. -/
def rushEntryScan (e : GameEvent) : List GameEvent → Bool
  | [] => false
  | p :: rest =>
      match p.x_coordinate with
      | none => rushEntryScan e rest
      | some x =>
          if decide (x < 0) then true
          else if decide (-25 ≤ x) && decide (x ≤ 25) then
            decide (e.time_elapsed - p.time_elapsed ≤ 4)
          else rushEntryScan e rest

/-- processing _is_rush_entry (lines 512-534): same-team events of the last 5
seconds, scanned in descending time order. -/
def isRushEntryProcessing (events : List GameEvent) (e : GameEvent) : Bool :=
  rushEntryScan e ((events.filter (fun p =>
    decide (p.game_id = e.game_id) && decide (p.period = e.period) &&
    decide (p.time_elapsed < e.time_elapsed) &&
    decide (e.time_elapsed - 5 ≤ p.time_elapsed) &&
    optEq p.team_id e.team_id)).reverse)

/-- The ZoneEntry row built by processing _process_zone_entry (lines 445-507).
The GameEvent model has no details/description columns, so entry_type stays
"carry", controlled stays True and defender_id stays None. -/
def mkZoneEntryProcessing (events : List GameEvent) (e : GameEvent) : ZoneEntryRec :=
  { event_id := e.id
    entry_type := "carry"
    controlled := true
    player_id := e.player_id
    defender_id := none
    lead_to_shot := (queryFirstAsc events (zoneEntryShotPred e)).isSome
    lead_to_shot_time := (queryFirstAsc events (zoneEntryShotPred e)).map
      (fun g => g.time_elapsed - e.time_elapsed)
    attack_speed := if isRushEntryProcessing events e then "RUSH" else "CONTROLLED" }

/-- processing _process_zone_entry (lines 433-510): skip when a ZoneEntry for
this event id exists, otherwise insert the built row. -/
def processZoneEntry (events : List GameEvent) (st : DBState) (e : GameEvent) : DBState :=
  if st.entries.any (fun r => r.event_id = e.id) then st
  else { st with entries := st.entries ++ [mkZoneEntryProcessing events e] }

/-- The Pass row built by processing _process_pass (lines 548-624): recipient
inferred as the player of the next same-team different-player event within 2
seconds; completed iff a recipient was found; an incomplete pass is intercepted
by the first opponent event within 2 seconds. -/
def mkPassProcessing (events : List GameEvent) (e : GameEvent) : PassRec :=
  { event_id := e.id
    passer_id := e.player_id
    recipient_id := (queryFirstAsc events (fun n =>
        decide (n.game_id = e.game_id) && decide (n.period = e.period) &&
        decide (e.time_elapsed < n.time_elapsed) &&
        decide (n.time_elapsed ≤ e.time_elapsed + 2) &&
        optEq n.team_id e.team_id &&
        optNe n.player_id e.player_id)).bind (fun n => n.player_id)
    pass_type := "direct"
    zone := zoneOfX e.x_coordinate
    completed := ((queryFirstAsc events (fun n =>
        decide (n.game_id = e.game_id) && decide (n.period = e.period) &&
        decide (e.time_elapsed < n.time_elapsed) &&
        decide (n.time_elapsed ≤ e.time_elapsed + 2) &&
        optEq n.team_id e.team_id &&
        optNe n.player_id e.player_id)).bind (fun n => n.player_id)).isSome
    intercepted :=
      if ((queryFirstAsc events (fun n =>
          decide (n.game_id = e.game_id) && decide (n.period = e.period) &&
          decide (e.time_elapsed < n.time_elapsed) &&
          decide (n.time_elapsed ≤ e.time_elapsed + 2) &&
          optEq n.team_id e.team_id &&
          optNe n.player_id e.player_id)).bind (fun n => n.player_id)).isSome then false
      else (queryFirstAsc events (fun n =>
          decide (n.game_id = e.game_id) && decide (n.period = e.period) &&
          decide (e.time_elapsed < n.time_elapsed) &&
          decide (n.time_elapsed ≤ e.time_elapsed + 2) &&
          optNe n.team_id e.team_id)).isSome
    intercepted_by_id :=
      if ((queryFirstAsc events (fun n =>
          decide (n.game_id = e.game_id) && decide (n.period = e.period) &&
          decide (e.time_elapsed < n.time_elapsed) &&
          decide (n.time_elapsed ≤ e.time_elapsed + 2) &&
          optEq n.team_id e.team_id &&
          optNe n.player_id e.player_id)).bind (fun n => n.player_id)).isSome then none
      else ((queryFirstAsc events (fun n =>
          decide (n.game_id = e.game_id) && decide (n.period = e.period) &&
          decide (e.time_elapsed < n.time_elapsed) &&
          decide (n.time_elapsed ≤ e.time_elapsed + 2) &&
          optNe n.team_id e.team_id)).bind (fun n => n.player_id)) }

/-- processing _process_pass (lines 536-627): skip when a Pass for this event
id exists, otherwise insert the built row. -/
def processPass (events : List GameEvent) (st : DBState) (e : GameEvent) : DBState :=
  if st.passes.any (fun r => r.event_id = e.id) then st
  else { st with passes := st.passes ++ [mkPassProcessing events e] }

/-- The PuckRecovery row built by processing _process_recovery (lines 641-694):
recovery_type is "takeaway" for takeaway events and otherwise "loose" (the
forecheck branch probes the absent description column); led-to-possession iff a
same-team event follows within 3 seconds; preceded-by is the latest event of
the previous 3 seconds. -/
def mkRecoveryProcessing (events : List GameEvent) (e : GameEvent) : RecoveryRec :=
  { event_id := e.id
    player_id := e.player_id
    zone := zoneOfX e.x_coordinate
    recovery_type := if e.event_type = "takeaway" then "takeaway" else "loose"
    lead_to_possession := (queryFirstAsc events (fun n =>
        decide (n.game_id = e.game_id) && decide (n.period = e.period) &&
        decide (e.time_elapsed < n.time_elapsed) &&
        decide (n.time_elapsed ≤ e.time_elapsed + 3) &&
        optEq n.team_id e.team_id)).isSome
    preceded_by_id := (queryFirstDesc events (fun p =>
        decide (p.game_id = e.game_id) && decide (p.period = e.period) &&
        decide (p.time_elapsed < e.time_elapsed) &&
        decide (e.time_elapsed - 3 ≤ p.time_elapsed))).map (fun p => p.id) }

/-- processing _process_recovery (lines 629-697): skip when a PuckRecovery for
this event id exists, otherwise insert the built row. -/
def processRecovery (events : List GameEvent) (st : DBState) (e : GameEvent) : DBState :=
  if st.recoveries.any (fun r => r.event_id = e.id) then st
  else { st with recoveries := st.recoveries ++ [mkRecoveryProcessing events e] }

/-- The counters process_game starts from (lines 47-54). -/
def initStats (events : List GameEvent) : ProcStats :=
  { total_events := events.length
    shots_processed := 0
    entries_processed := 0
    passes_processed := 0
    recoveries_processed := 0
    other_processed := 0 }

/-- The derived-record effect of one iteration of process_game's loop
(lines 57-95): skip events _is_processed reports done, otherwise dispatch on
the lowercased type.  The final contextual branch calls _process_faceoff/
_process_hit/_process_penalty, methods this class never defines (an
AttributeError if ever reached); they would touch only the player/team stats
tables, so that branch leaves the derived-record state unchanged. -/
noncomputable def stepState (events : List GameEvent) (st : DBState) (e : GameEvent) : DBState :=
  if isProcessed st e then st
  else if shotEventTypes.contains (pyLower e.event_type) then processShot events st e
  else if pyLower e.event_type = "giveaway" ∨ pyLower e.event_type = "takeaway" then
    processRecovery events st e
  else if isZoneEntry events e then processZoneEntry events st e
  else if isPassProcessing events e then processPass events st e
  else st

/-- The counter effect of the same loop iteration (the stats increments of
process_game lines 68, 73, 78, 83 and 95). -/
noncomputable def stepStats (events : List GameEvent) (st : DBState) (s : ProcStats)
    (e : GameEvent) : ProcStats :=
  if isProcessed st e then s
  else if shotEventTypes.contains (pyLower e.event_type) then
    { s with shots_processed := s.shots_processed + 1 }
  else if pyLower e.event_type = "giveaway" ∨ pyLower e.event_type = "takeaway" then
    { s with recoveries_processed := s.recoveries_processed + 1 }
  else if isZoneEntry events e then
    { s with entries_processed := s.entries_processed + 1 }
  else if isPassProcessing events e then
    { s with passes_processed := s.passes_processed + 1 }
  else if otherEventTypes.contains (pyLower e.event_type) then
    { s with other_processed := s.other_processed + 1 }
  else s

/-- One full iteration of process_game's loop. -/
noncomputable def stepFull (events : List GameEvent) (acc : DBState × ProcStats)
    (e : GameEvent) : DBState × ProcStats :=
  (stepState events acc.1 e, stepStats events acc.1 acc.2 e)

/-- processing process_game classification loop (lines 57-95) over the game's
events in (period, time_elapsed) order.  The subsequent aggregation stage
(lines 97-99) writes the player/team stats tables, which are outside the
derived-record state modelled here. -/
noncomputable def processGame (events : List GameEvent) (st : DBState) : DBState × ProcStats :=
  events.foldl (stepFull events) (st, initStats events)

/-- How many derived records (over all four families) carry a given RawEvent
id. -/
def derivedCount (st : DBState) (eid : Nat) : Nat :=
  (st.shots.filter (fun r => r.event_id = eid)).length +
  (st.entries.filter (fun r => r.event_id = eid)).length +
  (st.passes.filter (fun r => r.event_id = eid)).length +
  (st.recoveries.filter (fun r => r.event_id = eid)).length

/-- Resolve a derived record's event_id against the game_events table (the
SQLAlchemy join/relationship access). -/
def joinEvent (events : List GameEvent) (eid : Nat) : Option GameEvent :=
  events.find? (fun g => g.id = eid)

/-- The qualifying entry set of metrics_service calculate_ecr (lines 27-38):
controlled entries, narrowed by the optional player, team (via the event join)
and game (via the event join) filters. -/
def msEcrQualifying (entries : List ZoneEntryRec) (events : List GameEvent)
    (pid tid : Option Int) (gid : Option String) : List ZoneEntryRec :=
  let q0 := entries.filter (fun r => r.controlled)
  let q1 := match pid with
    | some p => q0.filter (fun r => optEq r.player_id (some p))
    | none => q0
  let q2 := match tid with
    | some t => q1.filter (fun r =>
        match joinEvent events r.event_id with
        | some g => optEq g.team_id (some t)
        | none => false)
    | none => q1
  match gid with
  | some gi => q2.filter (fun r =>
      match joinEvent events r.event_id with
      | some g => decide (g.game_id = gi)
      | none => false)
  | none => q2

/-- metrics_service calculate_ecr (lines 22-44): successful / total over the
qualifying controlled entries, 0 when there are none. -/
def msCalculateEcr (entries : List ZoneEntryRec) (events : List GameEvent)
    (pid tid : Option Int) (gid : Option String) : ℚ :=
  let q := msEcrQualifying entries events pid tid gid
  if 0 < q.length then
    ((q.filter (fun r => r.lead_to_shot)).length : ℚ) / (q.length : ℚ)
  else 0

/-- PRI zone weight table (metrics_service lines 64-68), default 1. -/
def priZoneWeight (zone : String) : ℚ :=
  if zone = "OZ" then 2 else if zone = "NZ" then 1 else if zone = "DZ" then 1/2 else 1

/-- PRI recovery-type weight table (metrics_service lines 71-75), default 1. -/
def priTypeWeight (recovery_type : String) : ℚ :=
  if recovery_type = "takeaway" then 2
  else if recovery_type = "forecheck" then 3/2
  else if recovery_type = "loose" then 1
  else 1

/-- The recovery set of metrics_service calculate_pri (lines 48-59). -/
def msRecoveryQuery (recoveries : List RecoveryRec) (events : List GameEvent)
    (pid tid : Option Int) (gid : Option String) : List RecoveryRec :=
  let q1 := match pid with
    | some p => recoveries.filter (fun r => optEq r.player_id (some p))
    | none => recoveries
  let q2 := match tid with
    | some t => q1.filter (fun r =>
        match joinEvent events r.event_id with
        | some g => optEq g.team_id (some t)
        | none => false)
    | none => q1
  match gid with
  | some gi => q2.filter (fun r =>
      match joinEvent events r.event_id with
      | some g => decide (g.game_id = gi)
      | none => false)
  | none => q2

/-- metrics_service calculate_pri (lines 46-82): the sum over recoveries of
zone weight times type weight times outcome weight (1.5 when the recovery led
to possession). -/
def msCalculatePri (recoveries : List RecoveryRec) (events : List GameEvent)
    (pid tid : Option Int) (gid : Option String) : ℚ :=
  ((msRecoveryQuery recoveries events pid tid gid).map (fun r =>
    priZoneWeight r.zone * priTypeWeight r.recovery_type *
      (if r.lead_to_possession then 3/2 else 1))).sum

/-- The intercepted-pass set of metrics_service calculate_pdi (lines 177-187):
intercepted passes, by interceptor for a player scope, joined to the event for
the team/game scopes. -/
def msPdiInterceptedQuery (passes : List PassRec) (events : List GameEvent)
    (pid tid : Option Int) (gid : Option String) : List PassRec :=
  let q0 := passes.filter (fun r => r.intercepted)
  let q1 := match pid with
    | some p => q0.filter (fun r => optEq r.intercepted_by_id (some p))
    | none => q0
  let q2 := match tid with
    | some t => q1.filter (fun r =>
        match joinEvent events r.event_id with
        | some g => optEq g.team_id (some t)
        | none => false)
    | none => q1
  match gid with
  | some gi => q2.filter (fun r =>
      match joinEvent events r.event_id with
      | some g => decide (g.game_id = gi)
      | none => false)
  | none => q2

/-- The takeaway set of metrics_service calculate_pdi (lines 193-201). -/
def msPdiTakeawayQuery (recoveries : List RecoveryRec) (events : List GameEvent)
    (pid tid : Option Int) (gid : Option String) : List RecoveryRec :=
  let q0 := recoveries.filter (fun r => r.recovery_type = "takeaway")
  let q1 := match pid with
    | some p => q0.filter (fun r => optEq r.player_id (some p))
    | none => q0
  let q2 := match tid with
    | some t => q1.filter (fun r =>
        match joinEvent events r.event_id with
        | some g => optEq g.team_id (some t)
        | none => false)
    | none => q1
  match gid with
  | some gi => q2.filter (fun r =>
      match joinEvent events r.event_id with
      | some g => decide (g.game_id = gi)
      | none => false)
  | none => q2

/-- metrics_service calculate_pdi (lines 169-206): 1.5 per intercepted pass
plus 1.8 per takeaway.  This variant has no entry-denial term in any scope. -/
def msCalculatePdi (passes : List PassRec) (recoveries : List RecoveryRec)
    (events : List GameEvent) (pid tid : Option Int) (gid : Option String) : ℚ :=
  ((msPdiInterceptedQuery passes events pid tid gid).length : ℚ) * (15/10) +
  ((msPdiTakeawayQuery recoveries events pid tid gid).length : ℚ) * (18/10)

/-- processing calculate_pdi (lines 893-965), player and unfiltered scopes:
1.5 per intercepted pass (by interceptor), 2.0 per denied - uncontrolled -
entry (by defender), 1.8 per takeaway (by recovering player).  The team-scope
branch references or_/and_, names processing/event_processor.py never imports
(a NameError when reached), and the game scope resolves ids through the Game
table; neither is modelled. -/
def procCalculatePdiPlayer (passes : List PassRec) (entries : List ZoneEntryRec)
    (recoveries : List RecoveryRec) (pid : Option Int) : ℚ :=
  let interceptedRows : List PassRec :=
    match pid with
    | some p => (passes.filter (fun r => r.intercepted)).filter
        (fun r => optEq r.intercepted_by_id (some p))
    | none => passes.filter (fun r => r.intercepted)
  let deniedRows : List ZoneEntryRec :=
    match pid with
    | some p => (entries.filter (fun r => !r.controlled)).filter
        (fun r => optEq r.defender_id (some p))
    | none => entries.filter (fun r => !r.controlled)
  let takeawayRows : List RecoveryRec :=
    match pid with
    | some p => (recoveries.filter (fun r => r.recovery_type = "takeaway")).filter
        (fun r => optEq r.player_id (some p))
    | none => recoveries.filter (fun r => r.recovery_type = "takeaway")
  (interceptedRows.length : ℚ) * (15/10) + (deniedRows.length : ℚ) * 2 +
    (takeawayRows.length : ℚ) * (18/10)

/-- The shot-metrics bundle returned by metrics_service calculate_shot_metrics
(lines 239-246 and 254-261). -/
structure ShotMetrics where
  total_shots : Nat
  goals : Nat
  shooting_percentage : ℝ
  total_xg : ℝ
  avg_xg : ℝ
  xg_performance : ℝ

/-- The shot set of metrics_service calculate_shot_metrics (lines 221-234):
by shooter for a player scope, by the related event's team/game otherwise. -/
def msShotQuery (shots : List ShotRec) (events : List GameEvent)
    (pid tid : Option Int) (gid : Option String) : List ShotRec :=
  let q1 := match pid with
    | some p => shots.filter (fun s => optEq s.shooter_id (some p))
    | none => shots
  let q2 := match tid with
    | some t => q1.filter (fun s =>
        match joinEvent events s.event_id with
        | some g => optEq g.team_id (some t)
        | none => false)
    | none => q1
  match gid with
  | some gi => q2.filter (fun s =>
      match joinEvent events s.event_id with
      | some g => decide (g.game_id = gi)
      | none => false)
  | none => q2

/-- metrics_service calculate_shot_metrics (lines 208-261): the all-zero bundle
when the qualifying set is empty, otherwise counts, shooting percentage,
total/average xG and goals-above-expected.  The engine writes every ShotEvent
xg, so the source's "shot.xg or 0" guard is the xg value itself. -/
noncomputable def msCalculateShotMetrics (shots : List ShotRec) (events : List GameEvent)
    (pid tid : Option Int) (gid : Option String) : ShotMetrics :=
  let q := msShotQuery shots events pid tid gid
  if q.length = 0 then
    { total_shots := 0, goals := 0, shooting_percentage := 0, total_xg := 0,
      avg_xg := 0, xg_performance := 0 }
  else
    { total_shots := q.length
      goals := (q.filter (fun s => s.goal)).length
      shooting_percentage := (((q.filter (fun s => s.goal)).length : ℝ) / (q.length : ℝ)) * 100
      total_xg := (q.map (fun s => s.xg)).sum
      avg_xg := (q.map (fun s => s.xg)).sum / (q.length : ℝ)
      xg_performance := ((q.filter (fun s => s.goal)).length : ℝ) - (q.map (fun s => s.xg)).sum }

/-- processing _calculate_player_stats composite score (lines 765-771):
ICE+ = ecr*1.5 + pri*1.2 + pdi*1.0 + xg_delta_psm*2.0. -/
def icePlusProcessing (ecr pri pdi xg_delta_psm : ℚ) : ℚ :=
  (ecr * (15/10)) + (pri * (12/10)) + (pdi * 1) + (xg_delta_psm * 2)

/-- metrics_service calculate_player_metrics composite score (lines 298-307):
starts at 0, adds xg_performance*2.0 only when the player has shots, then
ecr*1.5 and pri*1.2.  PDI and xg-delta do not appear. -/
noncomputable def icePlusMetricsService (ecr pri : ℚ) (m : ShotMetrics) : ℝ :=
  (if 0 < m.total_shots then m.xg_performance * 2 else 0) +
    (ecr : ℝ) * (15/10) + (pri : ℝ) * (12/10)

/-- The ICE+ value metrics_service calculate_player_metrics reports for a
player (lines 279-281 and 298-307). -/
noncomputable def msPlayerIcePlus (shots : List ShotRec) (entries : List ZoneEntryRec)
    (recoveries : List RecoveryRec) (events : List GameEvent) (pid : Int) : ℝ :=
  icePlusMetricsService (msCalculateEcr entries events (some pid) none none)
    (msCalculatePri recoveries events (some pid) none none)
    (msCalculateShotMetrics shots events (some pid) none none)

/-- metrics_service _calculate_xg_from_location (lines 134-166): the plain
distance/angle xG (no shot type, rush/rebound or situation step), with the
90-degree special case, default 0.05 on missing coordinates. -/
noncomputable def msXgFromLocation (x y : Option ℚ) : ℝ :=
  match x, y with
  | some xv, some yv =>
      min (95/100)
        (max (1/100) (1 - shotDistance xv yv / 100) *
          (1 - (shotAngleProcessing xv yv / 90) * (7/10)))
  | _, _ => 5/100

/-- The pass set of metrics_service calculate_xg_delta_psm (lines 89-99):
completed passes joined to their event, with player/team/game filters. -/
def msXgDeltaPassQuery (passes : List PassRec) (events : List GameEvent)
    (pid tid : Option Int) (gid : Option String) : List PassRec :=
  let q0 := (passes.filter (fun r => r.completed)).filter
    (fun r => (joinEvent events r.event_id).isSome)
  let q1 := match pid with
    | some p => q0.filter (fun r => optEq r.passer_id (some p))
    | none => q0
  let q2 := match tid with
    | some t => q1.filter (fun r =>
        match joinEvent events r.event_id with
        | some g => optEq g.team_id (some t)
        | none => false)
    | none => q1
  match gid with
  | some gi => q2.filter (fun r =>
      match joinEvent events r.event_id with
      | some g => decide (g.game_id = gi)
      | none => false)
  | none => q2

/-- metrics_service calculate_xg_delta_psm (lines 84-132): for each completed
qualifying pass, take the first shot of the same game and period within 3
seconds after it (this variant has no shooter restriction), and accumulate
max(0, shot xg - the hypothetical xG from the pass's own location). -/
noncomputable def msCalculateXgDeltaPsm (passes : List PassRec) (shots : List ShotRec)
    (events : List GameEvent) (pid tid : Option Int) (gid : Option String) : ℝ :=
  ((msXgDeltaPassQuery passes events pid tid gid).map (fun pe =>
    match joinEvent events pe.event_id with
    | none => 0
    | some ge =>
        match (shots.filter (fun s =>
          match joinEvent events s.event_id with
          | none => false
          | some sg =>
              decide (sg.game_id = ge.game_id) && decide (sg.period = ge.period) &&
              decide (ge.time_elapsed < sg.time_elapsed) &&
              decide (sg.time_elapsed ≤ ge.time_elapsed + 3))).head? with
        | none => 0
        | some s => max 0 (s.xg - msXgFromLocation ge.x_coordinate ge.y_coordinate))).sum

/-- Join filter of data_import _check_and_record_shot_assist's shot query
(lines 678-686): same game and period, strictly after the pass, within the
source's 7-second window, joined to a ShotEvent whose shooter is the pass's
recipient. -/
def assistShotQueryPred (shots : List ShotRec) (e : GameEvent) (recipient_id : Int)
    (g : GameEvent) : Bool :=
  decide (g.game_id = e.game_id) && decide (g.period = e.period) &&
  decide (e.time_elapsed < g.time_elapsed) &&
  decide (g.time_elapsed ≤ e.time_elapsed + 7) &&
  shots.any (fun s => decide (s.event_id = g.id) && optEq s.shooter_id (some recipient_id))

/-- Mutate the first ShotEvent row carrying the given event id: set its primary
assist (data_import lines 690 and 696-698). -/
def setPrimaryAssistFirst (passer_id : Int) (eid : Nat) : List ShotRec → List ShotRec
  | [] => []
  | s :: rest =>
      if s.event_id = eid then { s with primary_assist_id := some passer_id } :: rest
      else s :: setPrimaryAssistFirst passer_id eid rest

/-- data_import _check_and_record_shot_assist (lines 671-698): nothing happens
without a recipient; otherwise take the first event of the 7-second window
with a shot by the recipient, and if its shot is a goal with no primary assist
yet, set the passer as primary assist.  The xG-delta recording the function
also performs (line 693) updates the PlayerGameStats table, not the shot table
modelled here. -/
def checkAndRecordShotAssist (events : List GameEvent) (shots : List ShotRec)
    (e : GameEvent) (passer_id : Int) (recipient_id : Option Int) : List ShotRec :=
  match recipient_id with
  | none => shots
  | some rid =>
      match (events.filter (assistShotQueryPred shots e rid)).head? with
      | none => shots
      | some g =>
          match shots.find? (fun s => s.event_id = g.id) with
          | none => shots
          | some s =>
              if s.goal && decide (s.primary_assist_id = none) then
                setPrimaryAssistFirst passer_id g.id shots
              else shots

/-- Load order of the event table (process_game lines 38-44): within one game,
rows appear in nondecreasing (period, time_elapsed) order. -/
def eventOrder (a b : GameEvent) : Prop :=
  a.game_id = b.game_id →
    (a.period < b.period ∨ (a.period = b.period ∧ a.time_elapsed ≤ b.time_elapsed))

instance : DecidableRel eventOrder := fun a b => by
  unfold eventOrder
  infer_instance

/-! Concrete rows used by witness and counterexample theorems. -/

/-- An empty derived-record state. -/
def emptyDB : DBState := { shots := [], entries := [], passes := [], recoveries := [] }

/-- A zone-entry raw event (game 2023020001, period 1, t = 100s). -/
def entryEventW : GameEvent :=
  { id := 1, game_id := "2023020001", event_type := "zone-entry", period := 1,
    time_elapsed := 100, x_coordinate := some 30, y_coordinate := some 0,
    team_id := some 5, player_id := some 11, situation_code := none }

/-- A same-team shot-on-goal 6 seconds after entryEventW. -/
def shotEventW : GameEvent :=
  { id := 2, game_id := "2023020001", event_type := "shot-on-goal", period := 1,
    time_elapsed := 106, x_coordinate := some 50, y_coordinate := some 0,
    team_id := some 5, player_id := some 12, situation_code := none }

/-- A shot-on-goal raw event whose ShotEvent row already exists. -/
def shotEventC4 : GameEvent :=
  { id := 21, game_id := "2023020001", event_type := "shot-on-goal", period := 1,
    time_elapsed := 300, x_coordinate := some 60, y_coordinate := some 4,
    team_id := some 5, player_id := some 9, situation_code := none }

/-- The pre-existing ShotEvent row for shotEventC4. -/
noncomputable def existingShotC4 : ShotRec :=
  { event_id := 21, shot_type := "wrist_shot", distance := none, angle := none,
    goal := false, shooter_id := some 9, goalie_id := none, primary_assist_id := none,
    secondary_assist_id := none, preceding_event_id := none, xg := 1/20,
    is_scoring_chance := false, is_high_danger := false, rush_shot := false,
    rebound_shot := false }

/-- A state already holding existingShotC4. -/
noncomputable def dbC4 : DBState :=
  { shots := [existingShotC4], entries := [], passes := [], recoveries := [] }

/-- A faceoff raw event (outside the four derived-record families). -/
def faceoffEventC10 : GameEvent :=
  { id := 31, game_id := "2023020001", event_type := "faceoff", period := 1,
    time_elapsed := 10, x_coordinate := none, y_coordinate := none,
    team_id := some 5, player_id := some 9, situation_code := none }

/-- A completed pass by player 7 to recipient 2 (game 2023020002, t = 200s). -/
def passEventC8 : GameEvent :=
  { id := 10, game_id := "2023020002", event_type := "pass", period := 2,
    time_elapsed := 200, x_coordinate := some 40, y_coordinate := some 10,
    team_id := some 5, player_id := some 7, situation_code := none }

/-- The recipient's shot event, 5 seconds after passEventC8. -/
def shotGameEventC8 : GameEvent :=
  { id := 11, game_id := "2023020002", event_type := "goal", period := 2,
    time_elapsed := 205, x_coordinate := some 60, y_coordinate := some 5,
    team_id := some 5, player_id := some 2, situation_code := none }

/-- The goal ShotEvent row for shotGameEventC8, with no primary assist yet. -/
noncomputable def goalShotC8 : ShotRec :=
  { event_id := 11, shot_type := "Wrist Shot", distance := none, angle := none,
    goal := true, shooter_id := some 2, goalie_id := none, primary_assist_id := none,
    secondary_assist_id := none, preceding_event_id := none, xg := 1/20,
    is_scoring_chance := false, is_high_danger := false, rush_shot := false,
    rebound_shot := false }

/-- An incomplete pass intercepted by player 1. -/
def interceptedPassB : PassRec :=
  { event_id := 41, passer_id := some 2, recipient_id := none, pass_type := "direct",
    zone := "NZ", completed := false, intercepted := true, intercepted_by_id := some 1 }

/-- An uncontrolled (denied) zone entry, denied by defender 1. -/
def deniedEntryB : ZoneEntryRec :=
  { event_id := 51, entry_type := "dump", controlled := false, player_id := some 9,
    defender_id := some 1, lead_to_shot := false, lead_to_shot_time := none,
    attack_speed := "CONTROLLED" }

/-! Helper lemmas. -/

theorem shotTypeFactorDI_eq_spec {α : Type} [LinearOrderedField α] (st : String) :
    shotTypeFactorDI (α := α) st = specShotTypeFactor (classifyShotTypeDI st) := by
  unfold shotTypeFactorDI classifyShotTypeDI
  split_ifs <;> rfl

theorem situationAdjustDI_eq_spec {α : Type} [LinearOrderedField α]
    (sit : Option String) (x : α) :
    situationAdjustDI sit x = specSituationApply (classifySituation sit) x := by
  unfold situationAdjustDI specSituationApply classifySituation
  split_ifs <;> rfl

theorem shotTypeFactorDI_pos (st : String) : (0:ℚ) < shotTypeFactorDI st := by
  unfold shotTypeFactorDI
  split_ifs <;> norm_num

theorem typeMultiplierProcessing_pos (k : String) : (0:ℚ) < typeMultiplierProcessing k := by
  unfold typeMultiplierProcessing
  split_ifs <;> norm_num

theorem rushAdjustDI_pos (b : Bool) {x : ℚ} (hx : 0 < x) : 0 < rushAdjustDI b x := by
  unfold rushAdjustDI
  split_ifs
  · exact mul_pos hx (by norm_num)
  · exact hx

theorem reboundAdjustDI_pos (b : Bool) {x : ℚ} (hx : 0 < x) : 0 < reboundAdjustDI b x := by
  unfold reboundAdjustDI
  split_ifs
  · exact mul_pos hx (by norm_num)
  · exact hx

theorem situationAdjustDI_pos (sit : Option String) {x : ℚ} (hx : 0 < x) :
    0 < situationAdjustDI sit x := by
  unfold situationAdjustDI
  split_ifs
  · exact mul_pos hx (by norm_num)
  · exact mul_pos hx (by norm_num)
  · exact hx

theorem abs_arctan_eq (t : ℝ) : |Real.arctan t| = Real.arctan |t| := by
  rcases le_or_lt 0 t with h | h
  · rw [abs_of_nonneg h, abs_of_nonneg]
    have h2 := Real.arctan_strictMono.monotone h
    rwa [Real.arctan_zero] at h2
  · have h1 : Real.arctan t < 0 := by
      have h2 := Real.arctan_strictMono h
      rwa [Real.arctan_zero] at h2
    rw [abs_of_neg h, abs_of_neg h1, ← Real.arctan_neg]

theorem degreesPerRadian_nonneg : 0 ≤ degreesPerRadian :=
  div_nonneg (by norm_num) Real.pi_pos.le

/-! Claim theorems. -/

/-- C1 (amended): the data_import xG estimator computes exactly the claim's
reference formula - the max(0.01, 1 - d/100) base, the (1 - (angle/90)*0.7)
angle term, the claimed shot-type factors under the data_import string
spellings, the 1.2 rush and 1.3 rebound multipliers (both may apply), the 1.2
power-play and 0.7 short-handed multipliers, and the 0.95 clamp.  (The
processing-orchestrator variant does not: see the counterexample.) -/
theorem C1_data_import_xg_matches_reference (d a : ℚ) (st : String)
    (rush reb : Bool) (sit : Option String) :
    calcXgDataImport (some d) (some a) st rush reb sit =
      xgSpecReference d a (classifyShotTypeDI st) rush reb (classifySituation sit) := by
  simp only [calcXgDataImport, xgSpecReference, shotTypeFactorDI_eq_spec,
    situationAdjustDI_eq_spec]
  rfl

/-- C1 counterexample: the processing orchestrator's xG for a wrist shot at
distance 50 straight on is 0.5 (its table has wrist_shot = 1.0), while the
claim's reference formula gives 0.5 * 1.1 = 0.55. -/
theorem C1_counterexample_processing_wrist :
    calcXgProcessing (α := ℚ) (some 50) (some 0) "wrist_shot" = 1/2 ∧
    xgSpecReference (α := ℚ) 50 0 SpecShotType.wrist false false SpecSituation.even = 11/20 ∧
    ((1 : ℚ)/2) ≠ 11/20 := by
  refine ⟨?_, ?_, by norm_num⟩
  · have h : pyReplaceSpace (pyLower "wrist_shot") = "wrist_shot" := rfl
    rw [calcXgProcessing, h]
    norm_num [typeMultiplierProcessing, min_def, max_def]
  · rw [xgSpecReference]
    norm_num [specShotTypeFactor, specRushApply, specReboundApply, specSituationApply,
      min_def, max_def]

/-- C2 (amended): with known distance and angle (the angle the classifiers
produce lies in [0, 90]), both xG estimators return a value in (0, 0.95]; with
a null distance or angle both return exactly 0.05.  The claimed lower bound of
0.01 is false: see the counterexample. -/
theorem C2_xg_bounds_amended :
    (∀ (d a : ℚ) (st : String) (rush reb : Bool) (sit : Option String),
        0 ≤ a → a ≤ 90 →
        (0 < calcXgDataImport (some d) (some a) st rush reb sit ∧
          calcXgDataImport (some d) (some a) st rush reb sit ≤ 95/100) ∧
        (0 < calcXgProcessing (some d) (some a) st ∧
          calcXgProcessing (some d) (some a) st ≤ 95/100)) ∧
    (∀ (x : Option ℚ) (st : String) (rush reb : Bool) (sit : Option String),
        calcXgDataImport none x st rush reb sit = 5/100 ∧
        calcXgDataImport x none st rush reb sit = 5/100 ∧
        calcXgProcessing none x st = 5/100 ∧
        calcXgProcessing x none st = 5/100) := by
  constructor
  · intro d a st rush reb sit h0 h90
    have hbase : (0:ℚ) < max (1/100) (1 - d/100) := lt_max_of_lt_left (by norm_num)
    have hang : (0:ℚ) < 1 - (a/90) * (7/10) := by nlinarith
    have hcoreDI : (0:ℚ) <
        max (1/100) (1 - d/100) * (1 - (a/90) * (7/10)) * shotTypeFactorDI st :=
      mul_pos (mul_pos hbase hang) (shotTypeFactorDI_pos st)
    have hcoreP : (0:ℚ) <
        max (1/100) (1 - d/100) * (1 - (a/90) * (7/10)) *
          typeMultiplierProcessing (pyReplaceSpace (pyLower st)) :=
      mul_pos (mul_pos hbase hang) (typeMultiplierProcessing_pos _)
    simp only [calcXgDataImport, calcXgProcessing]
    exact ⟨⟨lt_min (by norm_num)
        (situationAdjustDI_pos sit (reboundAdjustDI_pos reb (rushAdjustDI_pos rush hcoreDI))),
      min_le_left _ _⟩, ⟨lt_min (by norm_num) hcoreP, min_le_left _ _⟩⟩
  · intro x st rush reb sit
    refine ⟨?_, ?_, ?_, ?_⟩ <;> cases x <;> rfl

/-- Witness for C2: a concrete in-range shot evaluates inside (0, 0.95]. -/
theorem C2_xg_bounds_amended_witness :
    0 < calcXgDataImport (α := ℚ) (some 30) (some 45) "Wrist Shot" true false (some "PP") ∧
    calcXgDataImport (α := ℚ) (some 30) (some 45) "Wrist Shot" true false (some "PP") ≤ 95/100 :=
  (C2_xg_bounds_amended.1 30 45 "Wrist Shot" true false (some "PP")
    (by norm_num) (by norm_num)).1

/-- C2 counterexample: a slap shot from distance 100 straight on at even
strength gets xG 0.01 * 0.8 = 0.008 from the data_import estimator, below the
claimed 0.01 lower bound. -/
theorem C2_counterexample_slap_low :
    calcXgDataImport (α := ℚ) (some 100) (some 0) "Slap Shot" false false none = 1/125 ∧
    ¬ ((1 : ℚ)/100 ≤ 1/125) := by
  constructor
  · have hsit : ∀ x : ℚ, situationAdjustDI none x = x := fun x => rfl
    rw [calcXgDataImport, hsit]
    norm_num [shotTypeFactorDI, rushAdjustDI, reboundAdjustDI, min_def, max_def]
  · norm_num

/-- C3 (amended): the processing classifier's shot distance is the Euclidean
distance from (x, y) to the goal point (89, 0) (stated against the metric of
the plane), its angle equals degrees(atan(abs dy / abs dx)) with the value
fixed at 90 when x = 89, and the shot at (89, 0) gets distance 0 and angle 90.
(The data_import classifier lacks the 90-degree case: see the
counterexample.) -/
theorem C3_processing_shot_geometry (x y : ℚ) :
    shotDistance x y = dist (⟨(x:ℝ), (y:ℝ)⟩ : ℂ) (⟨89, 0⟩ : ℂ) ∧
    shotAngleProcessing x y =
      (if x = 89 then (90:ℝ)
       else Real.arctan (|(y:ℝ) - 0| / |(x:ℝ) - 89|) * degreesPerRadian) ∧
    shotDistance 89 0 = 0 ∧ shotAngleProcessing 89 0 = 90 := by
  refine ⟨?_, ?_, ?_, ?_⟩
  · rw [shotDistance, Complex.dist_eq_re_im]
  · by_cases hx : x = 89
    · simp [shotAngleProcessing, hx]
    · rw [shotAngleProcessing, if_neg hx, if_neg hx, abs_mul, abs_arctan_eq, abs_div,
        abs_of_nonneg degreesPerRadian_nonneg]
  · have h89 : ((89:ℚ):ℝ) = 89 := by norm_num
    have h0 : ((0:ℚ):ℝ) = 0 := by norm_num
    simp [shotDistance, h89, h0]
  · simp [shotAngleProcessing]

/-- C3 counterexample: the data_import classifier leaves the angle null for a
shot at (89, 0) instead of fixing it at 90. -/
theorem C3_counterexample_data_import_angle_null :
    shotAngleDataImport 89 0 = none ∧ shotAngleDataImport 89 0 ≠ some 90 := by
  constructor
  · simp [shotAngleDataImport]
  · simp [shotAngleDataImport]

/-- C7: for the zone-entry record the processing classifier builds, a same-team
same-period shot within the 10-second window forces lead_to_shot = true; if no
such shot exists in the window (in particular when the earliest same-team shot
comes later than 10 seconds) lead_to_shot = false; and when lead_to_shot is
true, lead_to_shot_time is the earliest matching shot's time minus the entry
time, which lies in [0, 10]. -/
theorem C7_entry_shot_linkage (events : List GameEvent) (e : GameEvent)
    (hsort : events.Pairwise eventOrder) :
    ((∃ g ∈ events, zoneEntryShotPred e g = true) →
        (mkZoneEntryProcessing events e).lead_to_shot = true) ∧
    ((∀ g ∈ events, zoneEntryShotPred e g = false) →
        (mkZoneEntryProcessing events e).lead_to_shot = false) ∧
    ((mkZoneEntryProcessing events e).lead_to_shot = true →
      ∃ g ∈ events, zoneEntryShotPred e g = true ∧
        (mkZoneEntryProcessing events e).lead_to_shot_time =
          some (g.time_elapsed - e.time_elapsed) ∧
        (∀ g' ∈ events, zoneEntryShotPred e g' = true →
          g.time_elapsed ≤ g'.time_elapsed) ∧
        0 ≤ g.time_elapsed - e.time_elapsed ∧ g.time_elapsed - e.time_elapsed ≤ 10) := by
  refine ⟨?_, ?_, ?_⟩
  · rintro ⟨g, hg, hp⟩
    have hmem : g ∈ events.filter (zoneEntryShotPred e) := List.mem_filter.2 ⟨hg, hp⟩
    simp only [mkZoneEntryProcessing, queryFirstAsc]
    cases hl : events.filter (zoneEntryShotPred e) with
    | nil => rw [hl] at hmem; exact absurd hmem (List.not_mem_nil g)
    | cons a t => simp
  · intro hall
    have hnil : events.filter (zoneEntryShotPred e) = [] :=
      List.filter_eq_nil_iff.2 (fun a ha => by simp [hall a ha])
    simp [mkZoneEntryProcessing, queryFirstAsc, hnil]
  · intro hls
    simp only [mkZoneEntryProcessing, queryFirstAsc] at hls ⊢
    cases hl : events.filter (zoneEntryShotPred e) with
    | nil => rw [hl] at hls; simp at hls
    | cons g t =>
      have hmem : g ∈ events.filter (zoneEntryShotPred e) := by
        rw [hl]; exact List.mem_cons_self g t
      have hg : g ∈ events := (List.mem_filter.1 hmem).1
      have hp : zoneEntryShotPred e g = true := (List.mem_filter.1 hmem).2
      have hpc : g.game_id = e.game_id ∧ g.period = e.period ∧
          e.time_elapsed < g.time_elapsed ∧ g.time_elapsed ≤ e.time_elapsed + 10 := by
        have hp2 := hp
        simp only [zoneEntryShotPred, Bool.and_eq_true, decide_eq_true_eq] at hp2
        exact ⟨hp2.1.1.1.1.1, hp2.1.1.1.1.2, hp2.1.1.1.2, hp2.1.1.2⟩
      refine ⟨g, hg, hp, ?_, ?_, ?_, ?_⟩
      · rfl
      · intro g' hg' hp'
        have hmem' : g' ∈ events.filter (zoneEntryShotPred e) := List.mem_filter.2 ⟨hg', hp'⟩
        rw [hl] at hmem'
        rcases List.mem_cons.1 hmem' with h | h
        · rw [h]
        · have hpw : (events.filter (zoneEntryShotPred e)).Pairwise eventOrder :=
            List.Pairwise.sublist (List.filter_sublist _) hsort
          rw [hl] at hpw
          have hord := (List.pairwise_cons.1 hpw).1 g' h
          have hpc' : g'.game_id = e.game_id ∧ g'.period = e.period := by
            have hp2 := hp'
            simp only [zoneEntryShotPred, Bool.and_eq_true, decide_eq_true_eq] at hp2
            exact ⟨hp2.1.1.1.1.1, hp2.1.1.1.1.2⟩
          have hgame : g.game_id = g'.game_id := hpc.1.trans hpc'.1.symm
          rcases hord hgame with hlt | ⟨_, hle⟩
          · rw [hpc.2.1, hpc'.2] at hlt
            exact absurd hlt (lt_irrefl _)
          · exact hle
      · linarith [hpc.2.2.1]
      · linarith [hpc.2.2.2]

/-- For the witness of C7: lead_to_shot on the concrete entry/shot pair. -/
theorem C7_entry_shot_linkage_witness :
    (mkZoneEntryProcessing [shotEventW] entryEventW).lead_to_shot = true :=
  (C7_entry_shot_linkage [shotEventW] entryEventW (List.pairwise_singleton _ _)).1
    ⟨shotEventW, List.mem_singleton_self _,
      by norm_num [zoneEntryShotPred, entryEventW, shotEventW, optEq, zoneEntryShotTypes]⟩

theorem length_filter_append_singleton {α : Type} (l : List α) (x : α) (p : α → Bool) :
    ((l ++ [x]).filter p).length = (l.filter p).length + (if p x then 1 else 0) := by
  rw [List.filter_append, List.length_append]
  by_cases hx : p x <;> simp [List.filter_cons, hx]

theorem mkShotRecProcessing_event_id (events : List GameEvent) (e : GameEvent) :
    (mkShotRecProcessing events e).event_id = e.id := rfl

theorem mkZoneEntryProcessing_event_id (events : List GameEvent) (e : GameEvent) :
    (mkZoneEntryProcessing events e).event_id = e.id := rfl

theorem mkPassProcessing_event_id (events : List GameEvent) (e : GameEvent) :
    (mkPassProcessing events e).event_id = e.id := rfl

theorem mkRecoveryProcessing_event_id (events : List GameEvent) (e : GameEvent) :
    (mkRecoveryProcessing events e).event_id = e.id := rfl

theorem isProcessed_shot_branch (st : DBState) (e : GameEvent)
    (h : shotEventTypes.contains (pyLower e.event_type) = true) :
    isProcessed st e = st.shots.any (fun s => s.event_id = e.id) := by
  simp only [isProcessed]
  rw [if_pos h]

theorem isProcessed_entry_branch (st : DBState) (e : GameEvent)
    (h0 : shotEventTypes.contains (pyLower e.event_type) = false)
    (h1 : pyContains (pyLower e.event_type) "entry" = true) :
    isProcessed st e = st.entries.any (fun r => r.event_id = e.id) := by
  simp only [isProcessed]
  rw [if_neg (by rw [h0]; exact Bool.false_ne_true), if_pos h1]

theorem isProcessed_pass_branch (st : DBState) (e : GameEvent)
    (h0 : shotEventTypes.contains (pyLower e.event_type) = false)
    (h1 : pyContains (pyLower e.event_type) "entry" = false)
    (h2 : pyContains (pyLower e.event_type) "pass" = true) :
    isProcessed st e = st.passes.any (fun r => r.event_id = e.id) := by
  simp only [isProcessed]
  rw [if_neg (by rw [h0]; exact Bool.false_ne_true),
    if_neg (by rw [h1]; exact Bool.false_ne_true), if_pos h2]

theorem isProcessed_recovery_branch (st : DBState) (e : GameEvent)
    (h : pyLower e.event_type = "giveaway" ∨ pyLower e.event_type = "takeaway") :
    isProcessed st e = st.recoveries.any (fun r => r.event_id = e.id) := by
  rcases h with h | h <;> (simp only [isProcessed]; rw [h]; rfl)

theorem isProcessed_outside (st : DBState) (e : GameEvent)
    (h0 : shotEventTypes.contains (pyLower e.event_type) = false)
    (h1 : pyContains (pyLower e.event_type) "entry" = false)
    (h2 : pyContains (pyLower e.event_type) "pass" = false)
    (h3 : ¬(pyLower e.event_type = "giveaway" ∨ pyLower e.event_type = "takeaway")) :
    isProcessed st e = true := by
  simp only [isProcessed]
  rw [if_neg (by rw [h0]; exact Bool.false_ne_true),
    if_neg (by rw [h1]; exact Bool.false_ne_true),
    if_neg (by rw [h2]; exact Bool.false_ne_true), if_neg h3]

theorem processZoneEntry_skip (events : List GameEvent) (st : DBState) (e : GameEvent)
    (h : st.entries.any (fun r => r.event_id = e.id) = true) :
    processZoneEntry events st e = st := by
  unfold processZoneEntry
  rw [if_pos h]

theorem stepState_skip (events : List GameEvent) (st : DBState) (e : GameEvent)
    (h : isProcessed st e = true) : stepState events st e = st := by
  unfold stepState
  rw [if_pos h]

theorem stepStats_skip (events : List GameEvent) (st : DBState) (s : ProcStats) (e : GameEvent)
    (h : isProcessed st e = true) : stepStats events st s e = s := by
  unfold stepStats
  rw [if_pos h]

theorem stepStats_other_preserved (events : List GameEvent) (st : DBState) (s : ProcStats)
    (e : GameEvent) : (stepStats events st s e).other_processed = s.other_processed := by
  unfold stepStats
  split_ifs with h1 h2 h3 h4 h5 h6
  · rfl
  · rfl
  · rfl
  · rfl
  · rfl
  · exfalso
    have hmem : pyLower e.event_type = "faceoff" ∨ pyLower e.event_type = "hit" ∨
        pyLower e.event_type = "penalty" ∨ pyLower e.event_type = "delayed-penalty" := by
      have h6' := h6
      simp [otherEventTypes] at h6'
      tauto
    have hsh : shotEventTypes.contains (pyLower e.event_type) = false :=
      Bool.eq_false_iff.2 h2
    rcases hmem with het | het | het | het <;>
      exact h1 (isProcessed_outside st e hsh (by rw [het]; rfl) (by rw [het]; rfl)
        (by rw [het]; decide))
  · rfl

/-- C4 (amended): classification is idempotent as a state transformer: if a
derived record already exists for the event the step is a no-op on the state;
one classification step over a fresh event leaves at most one derived record
for that event id; and classifying the same event twice equals classifying it
once.  The claim's "returns the existing record" clause is false: the
effective _process_shot returns None even when it skips (the second
_process_shot definition in the class shadows the first) — see the
counterexample. -/
theorem C4_classification_idempotent (events : List GameEvent) (st : DBState) (e : GameEvent) :
    (isProcessed st e = true → stepState events st e = st) ∧
    (derivedCount st e.id = 0 → derivedCount (stepState events st e) e.id ≤ 1) ∧
    stepState events (stepState events st e) e = stepState events st e := by
  refine ⟨stepState_skip events st e, ?_, ?_⟩
  · intro h0
    unfold stepState
    split_ifs with h1 h2 h3 h5 h6
    · omega
    · unfold processShot
      split_ifs with hex
      · omega
      · simp only [derivedCount] at h0 ⊢
        rw [length_filter_append_singleton]
        simp [mkShotRecProcessing_event_id]
        omega
    · unfold processRecovery
      split_ifs with hex
      · omega
      · simp only [derivedCount] at h0 ⊢
        rw [length_filter_append_singleton]
        simp [mkRecoveryProcessing_event_id]
        omega
    · unfold processZoneEntry
      split_ifs with hex
      · omega
      · simp only [derivedCount] at h0 ⊢
        rw [length_filter_append_singleton]
        simp [mkZoneEntryProcessing_event_id]
        omega
    · unfold processPass
      split_ifs with hex
      · omega
      · simp only [derivedCount] at h0 ⊢
        rw [length_filter_append_singleton]
        simp [mkPassProcessing_event_id]
        omega
    · omega
  · by_cases hp : isProcessed st e = true
    · rw [stepState_skip events st e hp, stepState_skip events st e hp]
    · have hp' : isProcessed st e = false := Bool.eq_false_iff.2 hp
      by_cases hsh : shotEventTypes.contains (pyLower e.event_type) = true
      · have hst : stepState events st e = processShot events st e := by
          unfold stepState
          rw [if_neg hp, if_pos hsh]
        have hany : st.shots.any (fun s => s.event_id = e.id) = false := by
          rw [isProcessed_shot_branch st e hsh] at hp'
          exact hp'
        have hps : processShot events st e =
            { st with shots := st.shots ++ [mkShotRecProcessing events e] } := by
          unfold processShot
          rw [if_neg (by rw [hany]; exact Bool.false_ne_true)]
        have hproc2 : isProcessed (processShot events st e) e = true := by
          rw [isProcessed_shot_branch _ e hsh, hps]
          simp [List.any_append, mkShotRecProcessing_event_id]
        rw [hst, stepState_skip events _ e (hst ▸ hproc2)]
      · have hsh' : shotEventTypes.contains (pyLower e.event_type) = false :=
          Bool.eq_false_iff.2 hsh
        by_cases hgt : pyLower e.event_type = "giveaway" ∨ pyLower e.event_type = "takeaway"
        · have hst : stepState events st e = processRecovery events st e := by
            unfold stepState
            rw [if_neg hp, if_neg hsh, if_pos hgt]
          have hany : st.recoveries.any (fun r => r.event_id = e.id) = false := by
            rw [isProcessed_recovery_branch st e hgt] at hp'
            exact hp'
          have hps : processRecovery events st e =
              { st with recoveries := st.recoveries ++ [mkRecoveryProcessing events e] } := by
            unfold processRecovery
            rw [if_neg (by rw [hany]; exact Bool.false_ne_true)]
          have hproc2 : isProcessed (processRecovery events st e) e = true := by
            rw [isProcessed_recovery_branch _ e hgt, hps]
            simp [List.any_append, mkRecoveryProcessing_event_id]
          rw [hst, stepState_skip events _ e hproc2]
        · by_cases hze : isZoneEntry events e = true
          · have hst : stepState events st e = processZoneEntry events st e := by
              unfold stepState
              rw [if_neg hp, if_neg hsh, if_neg hgt, if_pos hze]
            by_cases hae : st.entries.any (fun r => r.event_id = e.id) = true
            · have hpz := processZoneEntry_skip events st e hae
              rw [hst, hpz, hst, hpz]
            · have hae' : st.entries.any (fun r => r.event_id = e.id) = false :=
                Bool.eq_false_iff.2 hae
              have hpz : processZoneEntry events st e =
                  { st with entries := st.entries ++ [mkZoneEntryProcessing events e] } := by
                unfold processZoneEntry
                rw [if_neg (by rw [hae']; exact Bool.false_ne_true)]
              have hae2 : (processZoneEntry events st e).entries.any
                  (fun r => r.event_id = e.id) = true := by
                rw [hpz]
                simp [List.any_append, mkZoneEntryProcessing_event_id]
              by_cases hce : pyContains (pyLower e.event_type) "entry" = true
              · have hproc2 : isProcessed (processZoneEntry events st e) e = true := by
                  rw [isProcessed_entry_branch _ e hsh' hce]
                  exact hae2
                rw [hst, stepState_skip events _ e hproc2]
              · have hce' : pyContains (pyLower e.event_type) "entry" = false :=
                  Bool.eq_false_iff.2 hce
                by_cases hcp : pyContains (pyLower e.event_type) "pass" = true
                · have hpa : st.passes.any (fun r => r.event_id = e.id) = false := by
                    rw [isProcessed_pass_branch st e hsh' hce' hcp] at hp'
                    exact hp'
                  have hproc2 : isProcessed (processZoneEntry events st e) e = false := by
                    rw [isProcessed_pass_branch _ e hsh' hce' hcp, hpz]
                    exact hpa
                  rw [hst]
                  unfold stepState
                  rw [if_neg (by rw [hproc2]; exact Bool.false_ne_true), if_neg hsh,
                    if_neg hgt, if_pos hze]
                  exact processZoneEntry_skip events _ e hae2
                · exfalso
                  have hcp' : pyContains (pyLower e.event_type) "pass" = false :=
                    Bool.eq_false_iff.2 hcp
                  have hout := isProcessed_outside st e hsh' hce' hcp' hgt
                  rw [hout] at hp'
                  exact Bool.noConfusion hp'
          · have hst : stepState events st e = st := by
              unfold stepState
              have hip : isPassProcessing events e = false := rfl
              rw [if_neg hp, if_neg hsh, if_neg hgt, if_neg hze,
                if_neg (by rw [hip]; exact Bool.false_ne_true)]
            rw [hst, hst]

/-- For the witness of C4: the skip no-op on the pre-populated state and the
at-most-one-record bound from the empty state, on the concrete shot event. -/
theorem C4_classification_idempotent_witness :
    stepState [] dbC4 shotEventC4 = dbC4 ∧
    derivedCount (stepState [] emptyDB shotEventC4) shotEventC4.id ≤ 1 :=
  ⟨(C4_classification_idempotent [] dbC4 shotEventC4).1 rfl,
   (C4_classification_idempotent [] emptyDB shotEventC4).2.1 rfl⟩

/-- C4 counterexample: re-processing a shot whose derived record already exists
is a state no-op, but the effective _process_shot returns None rather than the
existing record. -/
theorem C4_counterexample_returns_none :
    isProcessed dbC4 shotEventC4 = true ∧
    (processShotRet [] dbC4 shotEventC4).1 = dbC4 ∧
    (processShotRet [] dbC4 shotEventC4).2 = none ∧
    (processShotRet [] dbC4 shotEventC4).2 ≠ some existingShotC4 := by
  refine ⟨rfl, ?_, rfl, by simp [processShotRet]⟩
  show processShot [] dbC4 shotEventC4 = dbC4
  unfold processShot
  have hc : (dbC4.shots.any fun s => decide (s.event_id = shotEventC4.id)) = true := rfl
  rw [if_pos hc]

/-- C5: aggregators return the documented zero values on empty scopes: with no
qualifying controlled entries calculate_ecr returns 0 (no division), and with
no qualifying shots calculate_shot_metrics returns the exact all-zero
bundle. -/
theorem C5_empty_scope_zero_metrics (entries : List ZoneEntryRec) (shots : List ShotRec)
    (events : List GameEvent) (pid tid : Option Int) (gid : Option String) :
    (msEcrQualifying entries events pid tid gid = [] →
      msCalculateEcr entries events pid tid gid = 0) ∧
    (msShotQuery shots events pid tid gid = [] →
      msCalculateShotMetrics shots events pid tid gid =
        { total_shots := 0, goals := 0, shooting_percentage := 0, total_xg := 0,
          avg_xg := 0, xg_performance := 0 }) := by
  constructor
  · intro h
    unfold msCalculateEcr
    rw [h]
    rfl
  · intro h
    unfold msCalculateShotMetrics
    rw [h]
    rfl

/-- For the witness of C5: the empty database under a player filter. -/
theorem C5_empty_scope_zero_metrics_witness :
    msCalculateEcr [] [] (some 1) none none = 0 ∧
    msCalculateShotMetrics [] [] (some 1) none none =
      { total_shots := 0, goals := 0, shooting_percentage := 0, total_xg := 0,
        avg_xg := 0, xg_performance := 0 } :=
  ⟨(C5_empty_scope_zero_metrics [] [] [] (some 1) none none).1 rfl,
   (C5_empty_scope_zero_metrics [] [] [] (some 1) none none).2 rfl⟩

/-- C6 (amended): the processing orchestrator's _calculate_player_stats
composite satisfies ICE+ = 1.5*ecr + 1.2*pri + 1.0*pdi + 2.0*xg_delta_psm for
arbitrary rational inputs; the metrics_service composite does not follow this
formula — see the counterexample. -/
theorem C6_ice_plus_processing_formula (ecr pri pdi xg_delta_psm : ℚ) :
    icePlusProcessing ecr pri pdi xg_delta_psm =
      (15/10) * ecr + (12/10) * pri + 1 * pdi + 2 * xg_delta_psm := by
  unfold icePlusProcessing
  ring

/-- C6 counterexample: on a database holding one intercepted pass,
metrics_service calculate_player_metrics gives player 1 the ICE+ value 0 even
though the player's pdi is 3/2, so the claimed formula (value 3/2) is violated:
the service composite omits the pdi and xg-delta terms. -/
theorem C6_counterexample_metrics_service :
    msPlayerIcePlus [] [] [] [] 1 = 0 ∧
    msCalculatePdi [interceptedPassB] [] [] (some 1) none none = 3/2 ∧
    msCalculateEcr [] [] (some 1) none none = 0 ∧
    msCalculatePri [] [] (some 1) none none = 0 ∧
    msCalculateXgDeltaPsm [interceptedPassB] [] [] (some 1) none none = 0 ∧
    (0 : ℝ) ≠ (15/10) * 0 + (12/10) * 0 + 1 * (3/2) + 2 * 0 := by
  refine ⟨?_, ?_, rfl, rfl, ?_, by norm_num⟩
  · norm_num [msPlayerIcePlus, icePlusMetricsService, msCalculateEcr, msCalculatePri,
      msCalculateShotMetrics, msShotQuery, msEcrQualifying, msRecoveryQuery]
  · norm_num [msCalculatePdi, msPdiInterceptedQuery, msPdiTakeawayQuery,
      interceptedPassB, optEq]
  · rfl

/-- C8 (amended): for a completed pass with a known recipient, the linker takes
the first same-game same-period event strictly after the pass within a
7-second window (not the claimed 3 seconds) that carries a shot by the
recipient; when that shot is a goal with no primary assist yet, the passer is
set as its primary assist; with no recipient, or when no event qualifies,
nothing changes. -/
theorem C8_shot_assist_window (events : List GameEvent) (shots : List ShotRec)
    (e : GameEvent) (passer_id rid : Int)
    (hsort : events.Pairwise eventOrder) :
    (checkAndRecordShotAssist events shots e passer_id none = shots) ∧
    ((∀ g ∈ events, assistShotQueryPred shots e rid g = false) →
        checkAndRecordShotAssist events shots e passer_id (some rid) = shots) ∧
    ((∃ g ∈ events, assistShotQueryPred shots e rid g = true) →
      ∃ g ∈ events, assistShotQueryPred shots e rid g = true ∧
        (∀ g' ∈ events, assistShotQueryPred shots e rid g' = true →
          g.time_elapsed ≤ g'.time_elapsed) ∧
        (∀ s, shots.find? (fun s' => s'.event_id = g.id) = some s →
          s.goal = true → s.primary_assist_id = none →
          checkAndRecordShotAssist events shots e passer_id (some rid) =
            setPrimaryAssistFirst passer_id g.id shots)) := by
  refine ⟨rfl, ?_, ?_⟩
  · intro hall
    have hnil : events.filter (assistShotQueryPred shots e rid) = [] :=
      List.filter_eq_nil_iff.2 (fun a ha => by simp [hall a ha])
    simp [checkAndRecordShotAssist, hnil]
  · rintro ⟨g0, hg0, hp0⟩
    cases hl : events.filter (assistShotQueryPred shots e rid) with
    | nil =>
        exfalso
        have hmem := List.mem_filter.2 ⟨hg0, hp0⟩
        rw [hl] at hmem
        exact absurd hmem (List.not_mem_nil _)
    | cons g t =>
        have hmem : g ∈ events.filter (assistShotQueryPred shots e rid) := by
          rw [hl]; exact List.mem_cons_self g t
        have hg : g ∈ events := (List.mem_filter.1 hmem).1
        have hp : assistShotQueryPred shots e rid g = true := (List.mem_filter.1 hmem).2
        have hpc : g.game_id = e.game_id ∧ g.period = e.period := by
          have hp2 := hp
          simp only [assistShotQueryPred, Bool.and_eq_true, decide_eq_true_eq] at hp2
          exact ⟨hp2.1.1.1.1, hp2.1.1.1.2⟩
        refine ⟨g, hg, hp, ?_, ?_⟩
        · intro g' hg' hp'
          have hmem' : g' ∈ events.filter (assistShotQueryPred shots e rid) :=
            List.mem_filter.2 ⟨hg', hp'⟩
          rw [hl] at hmem'
          rcases List.mem_cons.1 hmem' with h | h
          · rw [h]
          · have hpw : (events.filter (assistShotQueryPred shots e rid)).Pairwise eventOrder :=
              List.Pairwise.sublist (List.filter_sublist _) hsort
            rw [hl] at hpw
            have hord := (List.pairwise_cons.1 hpw).1 g' h
            have hpc' : g'.game_id = e.game_id ∧ g'.period = e.period := by
              have hp2 := hp'
              simp only [assistShotQueryPred, Bool.and_eq_true, decide_eq_true_eq] at hp2
              exact ⟨hp2.1.1.1.1, hp2.1.1.1.2⟩
            have hgame : g.game_id = g'.game_id := hpc.1.trans hpc'.1.symm
            rcases hord hgame with hlt | ⟨_, hle⟩
            · rw [hpc.2, hpc'.2] at hlt
              exact absurd hlt (lt_irrefl _)
            · exact hle
        · intro s hf hgoal hprim
          simp only [checkAndRecordShotAssist, hl, List.head?_cons]
          rw [hf]
          simp [hgoal, hprim]

/-- For the witness of C8: the concrete pass and recipient goal five seconds
later get the passer recorded as primary assist. -/
theorem C8_shot_assist_window_witness :
    checkAndRecordShotAssist [shotGameEventC8] [goalShotC8] passEventC8 7 (some 2) =
      setPrimaryAssistFirst 7 shotGameEventC8.id [goalShotC8] := by
  obtain ⟨g, hg, hp, hmin, hcon⟩ :=
    (C8_shot_assist_window [shotGameEventC8] [goalShotC8] passEventC8 7 2
      (List.pairwise_singleton _ _)).2.2
      ⟨shotGameEventC8, List.mem_singleton_self _, by
        norm_num [assistShotQueryPred, passEventC8, shotGameEventC8, goalShotC8, optEq]⟩
  have hge : g = shotGameEventC8 := by
    rcases List.mem_cons.1 hg with h | h
    · exact h
    · exact absurd h (List.not_mem_nil g)
  subst hge
  exact hcon goalShotC8 rfl rfl rfl

/-- C8 counterexample: the recipient's goal comes 5 seconds after the pass —
outside the claimed 3-second window — yet the passer is still credited as
primary assist, because the source window is 7 seconds. -/
theorem C8_counterexample_window_7s :
    shotGameEventC8.time_elapsed = passEventC8.time_elapsed + 5 ∧
    ¬ (shotGameEventC8.time_elapsed ≤ passEventC8.time_elapsed + 3) ∧
    [goalShotC8].map (fun s => s.primary_assist_id) = [none] ∧
    (checkAndRecordShotAssist [shotGameEventC8] [goalShotC8] passEventC8 7 (some 2)).map
      (fun s => s.primary_assist_id) = [some 7] := by
  refine ⟨by norm_num [shotGameEventC8, passEventC8],
    by norm_num [shotGameEventC8, passEventC8], rfl, ?_⟩
  have hp : assistShotQueryPred [goalShotC8] passEventC8 2 shotGameEventC8 = true := by
    norm_num [assistShotQueryPred, passEventC8, shotGameEventC8, goalShotC8, optEq]
  have hfil : List.filter (assistShotQueryPred [goalShotC8] passEventC8 2) [shotGameEventC8]
      = [shotGameEventC8] := by
    simp [List.filter, hp]
  simp only [checkAndRecordShotAssist, hfil, List.head?_cons]
  rfl

/-- C9 (amended): metrics_service calculate_pdi equals 1.5 * intercepted
passes + 1.8 * takeaways on every scope — the 2.0 * entries-denied term is
absent altogether, not only when the defending-team context is ambiguous;
the processing orchestrator's player-scope calculate_pdi equals the
metrics_service value plus 2.0 * denied entries credited to that player. -/
theorem C9_pdi_weights (passes : List PassRec) (entries : List ZoneEntryRec)
    (recoveries : List RecoveryRec) (events : List GameEvent) (p : Int)
    (pid tid : Option Int) (gid : Option String) :
    (msCalculatePdi passes recoveries events pid tid gid =
      (15/10) * ((msPdiInterceptedQuery passes events pid tid gid).length : ℚ) +
      (18/10) * ((msPdiTakeawayQuery recoveries events pid tid gid).length : ℚ)) ∧
    (procCalculatePdiPlayer passes entries recoveries (some p) =
      msCalculatePdi passes recoveries [] (some p) none none +
        2 * (((entries.filter (fun r => !r.controlled)).filter
            (fun r => optEq r.defender_id (some p))).length : ℚ)) := by
  constructor
  · unfold msCalculatePdi
    ring
  · simp only [procCalculatePdiPlayer, msCalculatePdi, msPdiInterceptedQuery,
      msPdiTakeawayQuery]
    ring

/-- C9 counterexample: a denied entry credited to defender 1 gives
metrics_service PDI 0 on the player scope, while the processing orchestrator
(and the claimed formula, value 2) counts it: the metrics_service omits the
denial term even when the defender is unambiguous. -/
theorem C9_counterexample_denial_term :
    msCalculatePdi [] [] [] (some 1) none none = 0 ∧
    procCalculatePdiPlayer [] [deniedEntryB] [] (some 1) = 2 ∧
    (0:ℚ) ≠ (15/10) * 0 + 2 * 1 + (18/10) * 0 := by
  refine ⟨?_, ?_, by norm_num⟩
  · norm_num [msCalculatePdi, msPdiInterceptedQuery, msPdiTakeawayQuery]
  · norm_num [procCalculatePdiPlayer, deniedEntryB, optEq]

/-- C10: events outside the four derived-record families (not a shot type, no
"entry" or "pass" in the type, not giveaway/takeaway) are skipped: _is_processed
returns true for them and the loop step leaves both the derived-record state
and the statistics unchanged; consequently the other_processed counter of
process_game is 0 on every input, so the faceoff/hit/penalty dispatch branches
never run. -/
theorem C10_unprocessable_events_skipped (events : List GameEvent) :
    (∀ (st : DBState) (s : ProcStats) (e : GameEvent),
        shotEventTypes.contains (pyLower e.event_type) = false →
        pyContains (pyLower e.event_type) "entry" = false →
        pyContains (pyLower e.event_type) "pass" = false →
        ¬(pyLower e.event_type = "giveaway" ∨ pyLower e.event_type = "takeaway") →
        isProcessed st e = true ∧ stepFull events (st, s) e = (st, s)) ∧
    (∀ st : DBState, ((processGame events st).2).other_processed = 0) := by
  constructor
  · intro st s e h0 h1 h2 h3
    have hout := isProcessed_outside st e h0 h1 h2 h3
    refine ⟨hout, ?_⟩
    show (stepState events st e, stepStats events st s e) = (st, s)
    rw [stepState_skip events st e hout, stepStats_skip events st s e hout]
  · have key : ∀ (l : List GameEvent) (acc : DBState × ProcStats),
        ((l.foldl (stepFull events) acc).2).other_processed = acc.2.other_processed := by
      intro l
      induction l with
      | nil => intro acc; rfl
      | cons a t ih =>
          intro acc
          rw [List.foldl_cons, ih (stepFull events acc a)]
          exact stepStats_other_preserved events acc.1 acc.2 a
    intro st
    unfold processGame
    rw [key]
    rfl

/-- For the witness of C10: a concrete faceoff event is skipped. -/
theorem C10_unprocessable_events_skipped_witness :
    isProcessed emptyDB faceoffEventC10 = true ∧
    stepFull [] (emptyDB, initStats []) faceoffEventC10 = (emptyDB, initStats []) :=
  (C10_unprocessable_events_skipped []).1 emptyDB (initStats []) faceoffEventC10
    rfl rfl rfl (by decide)
